import Mathlib

/-!
Verification of the Geographic Selection & Overlay Synchronization Engine
(src/src/App.jsx) against its natural-language specification.

The relevant parts of the source are shallowly embedded below: pure
functions become Lean functions, effectful handlers become explicit
state-passing functions, and each asynchronous request is modelled by
passing its outcome as an argument.  JavaScript truthiness on strings
("" is falsy) is modelled explicitly where the code relies on it.
-/

namespace GeoApp

/-! ### Configuration resolver (useSettings, App.jsx lines 41 to 66)

The three inputs for one field are: the build-time injected value
(import.meta.env, absent = undefined), the value in localStorage
(absent = null), and the URL query parameter (absent = null).  Each is
an Option String; JavaScript logical-or skips null, undefined and the
empty string. -/

/-- Semantics of the JavaScript expression a logical-or d where a is a
string, null or undefined: falls through to d when a is absent or empty. -/
def orFalsy : Option String → String → String
  | none, d => d
  | some s, d => if s = "" then d else s

/-- Resolution of apiKey (App.jsx lines 43 to 48): build-time value,
else persisted value, else URL parameter gmaps_key, else empty. -/
def initialApiKey (buildKey persistedKey urlKey : Option String) : String :=
  orFalsy buildKey (orFalsy persistedKey (orFalsy urlKey ""))

/-- Resolution of backendUrl (App.jsx lines 49 to 53): build-time value,
else persisted value, else empty.  The source reads no URL parameter for
this field; the third argument is accepted only so that the claimed
precedence chain can be stated, and it is ignored exactly as the source
ignores params.get applied to backend. -/
def initialBackend (buildUrl persistedUrl : Option String)
    (_urlBackend : Option String) : String :=
  orFalsy buildUrl (orFalsy persistedUrl "")

/-- Modelled from the spec: the claimed precedence chain for either
configuration field, build-time value, else persisted value, else URL
query parameter, else empty string.  Stated separately so the source
resolution functions can be compared against it. -/
def specResolve (build persisted url : Option String) : String :=
  orFalsy build (orFalsy persisted (orFalsy url ""))

/-- Persistence effect of useSettings (App.jsx lines 57 to 63): the
localStorage entry is overwritten only when the new value is truthy,
that is, non-empty. -/
def persistSetting (stored : Option String) (newValue : String) : Option String :=
  if newValue = "" then stored else some newValue

/-! ### Selection store (App.jsx lines 93 to 121, 376, 426) -/

/-- Granularity level (App.jsx line 93): state or county. -/
inductive Level where
  | state
  | county
deriving DecidableEq, Repr

/-- Store snapshot: active level plus selected codes (App.jsx lines 93 to 94). -/
structure StoreState where
  level : Level
  selectedItems : List String
deriving DecidableEq, Repr

/-- toggleItem (App.jsx lines 116 to 121): if the code is present, keep
only the entries different from it; otherwise append it. -/
def toggleItem (code : String) (prev : List String) : List String :=
  if prev.contains code then prev.filter (fun c => c != code)
  else prev ++ [code]

/-- Handler of the level select (App.jsx line 376): sets the level and
unconditionally empties the selection. -/
def setLevelHandler (_s : StoreState) (l : Level) : StoreState :=
  { level := l, selectedItems := [] }

/-- Handler of the Clear all button (App.jsx line 426): empties the
selection, leaving the level unchanged. -/
def clearAll (s : StoreState) : StoreState :=
  { s with selectedItems := [] }

/-! ### Boundary loading effect (App.jsx lines 190 to 252)

The effect clears the data layer, and when the level is not state it
resets the memo flag geojsonLoadedRef and returns; at state level it
runs ensureGeoJsonLoaded, which fetches the GeoJSON unless the memo
flag is already set, and sets the flag only on success.  The model
tracks the memo flag and the number of fetches issued; the outcome of
each fetch is passed in as an argument. -/

/-- Observable state of the boundary loader: the memo flag
geojsonLoadedRef and a count of the boundary fetches issued so far. -/
structure GeoState where
  geojsonLoaded : Bool
  fetchCount : Nat
deriving DecidableEq, Repr

/-- One execution of the state-polygons effect (App.jsx lines 190 to
252) for a given level, with fetchSucceeds the outcome of the boundary
fetch should one be issued. -/
def boundaryEffect (level : Level) (fetchSucceeds : Bool) (g : GeoState) : GeoState :=
  if level != Level.state then { g with geojsonLoaded := false }
  else if g.geojsonLoaded then g
  else if fetchSucceeds then { geojsonLoaded := true, fetchCount := g.fetchCount + 1 }
  else { g with fetchCount := g.fetchCount + 1 }

/-- A sequence of executions of the boundary effect, one per
(level, fetch outcome) pair, in order. -/
def runBoundaryEffects (steps : List (Level × Bool)) (g : GeoState) : GeoState :=
  steps.foldl (fun g s => boundaryEffect s.1 s.2 g) g

/-! ### Base-map click resolution (App.jsx lines 254 to 317) -/

/-- One entry of a geocoder address_components array. -/
structure AddrComponent where
  types : List String
  long_name : String
  short_name : String
deriving DecidableEq, Repr

/-- One geocoder result; only address_components is consumed. -/
structure GeocodeResult where
  address_components : List AddrComponent
deriving DecidableEq, Repr

/-- extractStateCode (App.jsx lines 266 to 269): the short name of the
first administrative_area_level_1 component; a missing component or an
empty short name (falsy in the source) yields null. -/
def extractStateCode (components : List AddrComponent) : Option String :=
  match components.find? (fun c => c.types.contains "administrative_area_level_1") with
  | none => none
  | some comp => if comp.short_name = "" then none else some comp.short_name

/-- Test for the case-insensitive regexes County, Parish and Borough
anchored at the end of the string (App.jsx line 276): a case-insensitive
suffix test, written over the character list so it evaluates by kernel
reduction. -/
def endsWithCI (s suffix : String) : Bool :=
  let sl := s.data.map Char.toLower
  let tl := suffix.data.map Char.toLower
  sl.drop (sl.length - tl.length) == tl

/-- extractCountyLabel (App.jsx lines 271 to 281): combines the level-2
long name (with County appended unless it already ends in County, Parish
or Borough, case-insensitively) with the level-1 short name. -/
def extractCountyLabel (components : List AddrComponent) : Option String :=
  match components.find? (fun c => c.types.contains "administrative_area_level_2"),
        components.find? (fun c => c.types.contains "administrative_area_level_1") with
  | some countyComp, some stateComp =>
      let base := countyComp.long_name
      let countyName :=
        if !(endsWithCI base "County") && !(endsWithCI base "Parish")
            && !(endsWithCI base "Borough")
        then base ++ " County" else base
      some (countyName ++ ", " ++ stateComp.short_name)
  | _, _ => none

/-- countyNameToFips (App.jsx lines 142 to 148): the demo table from
county label to FIPS code. -/
def countyNameToFips : List (String × String) :=
  [("San Francisco County, CA", "06075"),
   ("Los Angeles County, CA", "06037"),
   ("New York County, NY", "36061"),
   ("Miami-Dade County, FL", "12086"),
   ("King County, WA", "53033")]

/-- Lookup in the demo county table (bracket access in App.jsx line 300). -/
def lookupFips (label : String) : Option String :=
  (countyNameToFips.find? (fun p => p.1 == label)).map (fun p => p.2)

/-- Result of one run of the base-map click callback: the selection
afterwards and the hint message set, if any. -/
structure ClickOutcome where
  selectedItems : List String
  hint : Option String
deriving DecidableEq, Repr

/-- Geocoder callback of the base-map click listener (App.jsx lines 287
to 309).  The response argument is none when the callback guard fails,
that is, when status is not OK or the results array is empty or absent;
in that case the source returns at once, with no hint and no mutation. -/
def baseMapClickCallback (level : Level) (response : Option GeocodeResult)
    (sel : List String) : ClickOutcome :=
  match response with
  | none => ⟨sel, none⟩
  | some r =>
    let components := r.address_components
    if level = Level.state then
      match extractStateCode components with
      | some code => ⟨toggleItem code sel, some ("Toggled state " ++ code)⟩
      | none => ⟨sel, some "Could not determine state here"⟩
    else
      match (extractCountyLabel components).bind
          (fun label => (lookupFips label).map (fun fips => (label, fips))) with
      | some (label, fips) => ⟨toggleItem fips sel, some ("Toggled " ++ label)⟩
      | none =>
          ⟨sel, some "Clicked county not in demo list. We will add full US counties soon."⟩

/-! ### County marker effect (App.jsx lines 320 to 363) -/

/-- Forward-geocode queries issued by the county marker effect: none at
state level; at county level one query per code among the first twelve
selected codes (selectedItems.slice applied with bounds 0 and 12). -/
def markerQueries (level : Level) (selectedItems : List String) : List String :=
  if level = Level.state then []
  else (selectedItems.take 12).map (fun code => "FIPS " ++ code ++ " county USA")

/-! ### Persistence client (saveSelection, App.jsx lines 150 to 174) -/

/-- A saved selection record as returned by the backend list endpoint. -/
structure SavedRecord where
  id : Nat
  name : String
  level : Level
  items : List String
deriving DecidableEq, Repr

/-- Outcome of one HTTP request: a network error (the fetch rejected),
or a response with an ok flag and a parsed JSON body. -/
inductive FetchResult (α : Type) where
  | netErr
  | resp (ok : Bool) (body : α)
deriving DecidableEq, Repr

/-- Result of one saveSelection call: the saved-list cache afterwards,
the user-visible failure message if any, and the POST request issued,
if any, as its name, level and items payload. -/
structure SaveOutcome where
  saved : List SavedRecord
  alertMsg : Option String
  request : Option (String × Level × List String)
deriving DecidableEq, Repr

/-- Semantics of the JavaScript string trim method: strips leading and
trailing whitespace.  Written over the character list so it evaluates by
kernel reduction. -/
def jsTrim (s : String) : String :=
  String.mk (((s.data.dropWhile Char.isWhitespace).reverse.dropWhile
    Char.isWhitespace).reverse)

/-- saveSelection (App.jsx lines 150 to 174): a blank name is rejected
before any request; otherwise a POST is issued, and on an ok response a
GET refresh replaces the saved-list cache with its body; a non-ok POST
response raises the Failed to save alert, and a rejected fetch in either
request raises the Error while saving alert, the cache unchanged. -/
def saveSelection (name : String) (level : Level) (items : List String)
    (prevSaved : List SavedRecord) (post : FetchResult Unit)
    (listFetch : FetchResult (List SavedRecord)) : SaveOutcome :=
  if jsTrim name = "" then ⟨prevSaved, none, none⟩
  else
    let req := some (name, level, items)
    match post with
    | .netErr => ⟨prevSaved, some "Error while saving", req⟩
    | .resp true _ =>
        match listFetch with
        | .netErr => ⟨prevSaved, some "Error while saving", req⟩
        | .resp _ list => ⟨list, none, req⟩
    | .resp false _ => ⟨prevSaved, some "Failed to save", req⟩

/-! ### Helper lemmas -/

/-- When the code is already selected, toggleItem filters it out. -/
theorem toggleItem_of_mem (S : List String) (c : String) (h : c ∈ S) :
    toggleItem c S = S.filter (fun a => a != c) := by
  simp [toggleItem, h]

/-- When the code is not selected, toggleItem appends it. -/
theorem toggleItem_of_not_mem (S : List String) (c : String) (h : c ∉ S) :
    toggleItem c S = S ++ [c] := by
  simp [toggleItem, h]

/-! ### Claim theorems -/

/-- C1: the claimed precedence chain, build-time value else persisted value
else URL query parameter else empty, holds for apiKey at every input, but
fails for backendUrl: the source never reads the backend URL parameter, so
with no build-time and no persisted value the resolved backendUrl is empty
even though the URL parameter is present, contradicting the claim and the
in-app tip text that documents the backend URL parameter. -/
theorem C1_backendUrl_param_ignored :
    (∀ b p u, initialApiKey b p u = specResolve b p u) ∧
    initialBackend none none (some "https://api.example.com") = "" ∧
    specResolve none none (some "https://api.example.com") = "https://api.example.com" :=
  ⟨fun _ _ _ => rfl, rfl, rfl⟩

/-- C2: the level select handler yields an empty selection for every prior
store state and every target level; no codes are carried over. -/
theorem C2_setLevel_clears_selection (s : StoreState) (l : Level) :
    (setLevelHandler s l).selectedItems = [] := rfl

/-- C3: toggle is an involution up to set-of-codes equality: toggling the
same code twice restores exactly the original membership. -/
theorem C3_toggle_involution (S : List String) (c x : String) :
    x ∈ toggleItem c (toggleItem c S) ↔ x ∈ S := by
  by_cases h : c ∈ S
  · have h2 : c ∉ S.filter (fun a => a != c) := by simp
    rw [toggleItem_of_mem S c h, toggleItem_of_not_mem _ c h2]
    simp only [List.mem_append, List.mem_filter, List.mem_singleton, bne_iff_ne, ne_eq,
      decide_eq_true_eq]
    constructor
    · rintro (⟨hxS, _⟩ | rfl)
      · exact hxS
      · exact h
    · intro hxS
      by_cases hx : x = c
      · exact Or.inr hx
      · exact Or.inl ⟨hxS, hx⟩
  · have hc : c ∈ S ++ [c] := by simp
    rw [toggleItem_of_not_mem S c h, toggleItem_of_mem _ c hc]
    rw [List.filter_append]
    have hl : S.filter (fun a => a != c) = S :=
      List.filter_eq_self.mpr (fun a ha => by
        simp only [bne_iff_ne, ne_eq, decide_eq_true_eq]
        exact fun e => h (e ▸ ha))
    simp [hl]

/-- C4 counterexample: starting unloaded, the run state level, then county
level, then state level again issues two boundary fetches, because leaving
state level resets the memo flag (App.jsx line 202); the claim that
re-entering state level issues no second fetch is therefore false. -/
theorem C4_refetch_counterexample :
    (runBoundaryEffects [(Level.state, true), (Level.county, true), (Level.state, true)]
      ⟨false, 0⟩).fetchCount = 2 ∧
    (runBoundaryEffects [(Level.state, true), (Level.county, true), (Level.state, true)]
      ⟨false, 0⟩).fetchCount ≠ 1 := by
  decide

/-- C4 amended: while the app stays at state level a successful load is
memoized, so a further effect run is a no-op with no second fetch; but an
intervening county-level run resets the memo flag, so the next state-level
run issues a fetch again. -/
theorem C4_memo_within_level (g : GeoState) (b b2 b3 : Bool)
    (h : g.geojsonLoaded = true) :
    boundaryEffect Level.state b g = g ∧
    (boundaryEffect Level.state b2 (boundaryEffect Level.county b3 g)).fetchCount
      = g.fetchCount + 1 := by
  constructor
  · simp [boundaryEffect, h]
  · cases b2 <;> simp [boundaryEffect, h]

/-- C4 witness: the memo theorem applied at a loaded state with one
fetch issued. -/
theorem C4_memo_within_level_witness :
    boundaryEffect Level.state true ⟨true, 1⟩ = ⟨true, 1⟩ ∧
    (boundaryEffect Level.state true (boundaryEffect Level.county true ⟨true, 1⟩)).fetchCount
      = 2 :=
  C4_memo_within_level ⟨true, 1⟩ true true true rfl

/-- C5 counterexample: when the reverse-geocode request fails (status not
OK or empty results), the callback returns silently: no hint is shown,
refuting the claim that a user-visible transient message is shown on
request failure.  The selection is indeed left unchanged. -/
theorem C5_silent_failure_counterexample :
    (baseMapClickCallback Level.state none ["CA"]).hint = none ∧
    (baseMapClickCallback Level.state none ["CA"]).selectedItems = ["CA"] :=
  ⟨rfl, rfl⟩

/-- C5 amended: a failed reverse-geocode request is silently ignored with
no message and no mutation; a successful response that cannot be resolved
to a code (no state component at state level, or a county label absent from
the demo table at county level) shows a transient message and leaves the
selection unchanged. -/
theorem C5_unresolvable_no_mutation (sel : List String) (lvl : Level)
    (r r2 : GeocodeResult)
    (hstate : extractStateCode r.address_components = none)
    (hcounty : (extractCountyLabel r2.address_components).bind lookupFips = none) :
    baseMapClickCallback lvl none sel = ⟨sel, none⟩ ∧
    baseMapClickCallback Level.state (some r) sel
      = ⟨sel, some "Could not determine state here"⟩ ∧
    baseMapClickCallback Level.county (some r2) sel
      = ⟨sel, some "Clicked county not in demo list. We will add full US counties soon."⟩ := by
  refine ⟨rfl, ?_, ?_⟩
  · simp [baseMapClickCallback, hstate]
  · cases hlabel : extractCountyLabel r2.address_components with
    | none => simp [baseMapClickCallback, hlabel]
    | some label =>
        have hfips : lookupFips label = none := by
          simpa [hlabel] using hcounty
        simp [baseMapClickCallback, hlabel, hfips]

/-- C5 witness: the amended theorem applied to a response with no address
components at state level, and to a county response for Cook County, IL,
which is outside the demo table. -/
theorem C5_unresolvable_no_mutation_witness :
    baseMapClickCallback Level.county none ["06075"] = ⟨["06075"], none⟩ ∧
    baseMapClickCallback Level.state (some ⟨[]⟩) ["06075"]
      = ⟨["06075"], some "Could not determine state here"⟩ ∧
    baseMapClickCallback Level.county
      (some ⟨[⟨["administrative_area_level_2"], "Cook", "Cook"⟩,
             ⟨["administrative_area_level_1"], "Illinois", "IL"⟩]⟩) ["06075"]
      = ⟨["06075"], some "Clicked county not in demo list. We will add full US counties soon."⟩ :=
  C5_unresolvable_no_mutation ["06075"] Level.county ⟨[]⟩
    ⟨[⟨["administrative_area_level_2"], "Cook", "Cook"⟩,
      ⟨["administrative_area_level_1"], "Illinois", "IL"⟩]⟩ rfl (by decide)

/-- C6: for a non-blank name, a successful POST makes the saved-list cache
equal to the body of the subsequent GET refresh, never the POST response
body (the outcome carries only the GET body); a non-ok POST response or a
network failure raises a user-visible alert and leaves the cache at its
prior value. -/
theorem C6_save_refresh (name : String) (lvl : Level) (items : List String)
    (prev list : List SavedRecord) (ok : Bool) (lf : FetchResult (List SavedRecord))
    (h : ¬ jsTrim name = "") :
    saveSelection name lvl items prev (.resp true ()) (.resp ok list)
      = ⟨list, none, some (name, lvl, items)⟩ ∧
    saveSelection name lvl items prev (.resp false ()) lf
      = ⟨prev, some "Failed to save", some (name, lvl, items)⟩ ∧
    saveSelection name lvl items prev .netErr lf
      = ⟨prev, some "Error while saving", some (name, lvl, items)⟩ := by
  refine ⟨?_, ?_, ?_⟩ <;> simp [saveSelection, h]

/-- C6 witness: the save theorem applied to the scenario of the spec, name
My Selection, level state, items CA and TX, with the GET refresh returning
the stored record. -/
theorem C6_save_refresh_witness :
    saveSelection "My Selection" Level.state ["CA", "TX"] []
      (.resp true ()) (.resp true [⟨1, "My Selection", Level.state, ["CA", "TX"]⟩])
      = ⟨[⟨1, "My Selection", Level.state, ["CA", "TX"]⟩], none,
         some ("My Selection", Level.state, ["CA", "TX"])⟩ ∧
    saveSelection "My Selection" Level.state ["CA", "TX"] [] (.resp false ()) .netErr
      = ⟨[], some "Failed to save", some ("My Selection", Level.state, ["CA", "TX"])⟩ ∧
    saveSelection "My Selection" Level.state ["CA", "TX"] [] .netErr .netErr
      = ⟨[], some "Error while saving", some ("My Selection", Level.state, ["CA", "TX"])⟩ :=
  C6_save_refresh "My Selection" Level.state ["CA", "TX"] []
    [⟨1, "My Selection", Level.state, ["CA", "TX"]⟩] true .netErr (by decide)

/-- C7: at county level the marker effect issues at most twelve
forward-geocode lookups, exactly one per code among the first twelve
selected codes and in that order; at state level it issues none.  The
effect reads the selection and never writes it, so codes beyond the
twelfth remain selected but undrawn. -/
theorem C7_marker_cap (sel : List String) :
    (markerQueries Level.county sel).length ≤ 12 ∧
    (markerQueries Level.county sel).length = min sel.length 12 ∧
    markerQueries Level.county sel
      = (sel.take 12).map (fun code => "FIPS " ++ code ++ " county USA") ∧
    markerQueries Level.state sel = [] := by
  refine ⟨?_, ?_, rfl, rfl⟩
  · simp [markerQueries, List.length_take]
  · simp [markerQueries, List.length_take, Nat.min_comm]

/-- C8: a name that is blank after trimming is rejected before any network
invocation: no request is issued, no alert raised, and the saved-list
cache keeps its prior value, for every POST and GET outcome. -/
theorem C8_blank_name_guard (name : String) (lvl : Level) (items : List String)
    (prev : List SavedRecord) (post : FetchResult Unit)
    (lf : FetchResult (List SavedRecord)) (h : jsTrim name = "") :
    saveSelection name lvl items prev post lf = ⟨prev, none, none⟩ := by
  simp [saveSelection, h]

/-- C8 witness: the guard theorem applied to a whitespace-only name with a
non-empty prior cache. -/
theorem C8_blank_name_guard_witness :
    saveSelection "   " Level.state ["CA"] [⟨1, "n", Level.state, []⟩]
      (.resp true ()) (.resp true []) = ⟨[⟨1, "n", Level.state, []⟩], none, none⟩ :=
  C8_blank_name_guard "   " Level.state ["CA"] [⟨1, "n", Level.state, []⟩]
    (.resp true ()) (.resp true []) (by decide)

/-- C9: the persistence effect never writes an empty value, so a
previously stored value survives a blank edit, while any non-empty edit is
written through immediately. -/
theorem C9_persist_nonempty_only (stored : Option String) (v : String) (h : v ≠ "") :
    persistSetting stored "" = stored ∧ persistSetting stored v = some v := by
  simp [persistSetting, h]

/-- C9 witness: the persistence theorem applied to a previously stored key
and a non-empty new key. -/
theorem C9_persist_nonempty_only_witness :
    persistSetting (some "old-key") "" = some "old-key" ∧
    persistSetting (some "old-key") "new-key" = some "new-key" :=
  C9_persist_nonempty_only (some "old-key") "new-key" (by decide)

/-- C10: on a duplicate-free selection, toggle preserves freedom from
duplicates; when the code is present it removes every occurrence, leaving
the other codes in order, and when absent it appends exactly one
occurrence; clearing and changing level reset the selection to empty. -/
theorem C10_selection_nodup_invariant (S : List String) (c : String)
    (s : StoreState) (l : Level) (h : S.Nodup) :
    (toggleItem c S).Nodup ∧
    (c ∈ S → toggleItem c S = S.filter (fun a => a != c)) ∧
    (c ∉ S → toggleItem c S = S ++ [c]) ∧
    (clearAll s).selectedItems = [] ∧
    (setLevelHandler s l).selectedItems = [] := by
  refine ⟨?_, toggleItem_of_mem S c, toggleItem_of_not_mem S c, rfl, rfl⟩
  by_cases hc : c ∈ S
  · rw [toggleItem_of_mem S c hc]
    exact h.filter _
  · rw [toggleItem_of_not_mem S c hc]
    refine List.Nodup.append h (List.nodup_singleton c) ?_
    simp [List.disjoint_singleton, hc]

/-- C10 witness: the invariant theorem applied to the selection CA, TX
with code CA, and a store at state level. -/
theorem C10_selection_nodup_invariant_witness :
    (toggleItem "CA" ["CA", "TX"]).Nodup ∧
    ("CA" ∈ (["CA", "TX"] : List String) → toggleItem "CA" ["CA", "TX"]
      = (["CA", "TX"] : List String).filter (fun a => a != "CA")) ∧
    ("CA" ∉ (["CA", "TX"] : List String) → toggleItem "CA" ["CA", "TX"]
      = ["CA", "TX"] ++ ["CA"]) ∧
    (clearAll ⟨Level.state, ["CA"]⟩).selectedItems = [] ∧
    (setLevelHandler ⟨Level.state, ["CA"]⟩ Level.county).selectedItems = [] :=
  C10_selection_nodup_invariant ["CA", "TX"] "CA" ⟨Level.state, ["CA"]⟩ Level.county
    (by decide)

end GeoApp
